import Mathlib

/-!
# go_software_architecture: the IoC container, the loggers and the discount strategies

A shallow embedding of the demonstration programs `Ioc/main.go`, `dip/main.go` and
`ocp/main.go`.  Mutation through pointers is rendered as explicit state passing, the outside
world (standard output, the standard logger, the file system, the clock) as a `World` value
threaded through every effectful call, and `float64` as IEEE 754 binary64 numbers with
round-to-nearest-even arithmetic.
-/

namespace GoArch

/-! ## Go runtime values -/

/-- A non-nil value of Go's `error` interface, observed through the text its `Error()` method
returns.  A possibly-nil `error` is an `Option GoError`, `none` being `nil`. -/
structure GoError where
  Error : String
deriving DecidableEq, Repr

/-- The text `fmt` substitutes for `%v` when the operand is an `error`: the result of `Error()`,
or `<nil>` for the nil interface. -/
def fmtV : Option GoError → String
  | none => "<nil>"
  | some e => e.Error

/-- Run-time panics a call can end in instead of returning. -/
inductive Panic where
  /-- A method call through a nil interface value. -/
  | nilDereference
deriving DecidableEq, Repr

/-! ## The builtin map -/

/-- Go's builtin `map[K]V` (allocated, i.e. non-nil): finitely many entries, at most one per
key.  The order of the entries is not observable by the programs modelled here. -/
structure GoMap (K : Type) (V : Type) where
  entries : List (K × V)
  nodupKeys : (entries.map Prod.fst).Nodup

namespace GoMap

variable {K V : Type} [DecidableEq K]

/-- Lookup in a list of entries: the first entry stored under `k`. -/
def lookupEntries (k : K) : List (K × V) → Option V
  | [] => none
  | (k', v') :: rest => if k' = k then some v' else lookupEntries k rest

/-- The result of `make(map[K]V)`: the empty map. -/
def empty : GoMap K V := { entries := [], nodupKeys := List.nodup_nil }

/-- The comma-ok index expression `v, ok := m[k]`: `some v` when an entry exists, `none` when
`ok` is false. -/
def get? (m : GoMap K V) (k : K) : Option V := lookupEntries k m.entries

/-- The assignment `m[k] = v`: the entry of `k`, if there is one, is replaced by the new
entry. -/
def set (m : GoMap K V) (k : K) (v : V) : GoMap K V :=
  { entries := (k, v) :: m.entries.filter (fun e => !decide (e.1 = k))
    nodupKeys := by
      rw [List.map_cons, List.nodup_cons]
      exact ⟨by simp, m.nodupKeys.sublist ((List.filter_sublist m.entries).map Prod.fst)⟩ }

/-- The builtin `len(m)`: the number of entries. -/
def len (m : GoMap K V) : Nat := m.entries.length

end GoMap

/-! ## The outside world -/

/-- Everything outside the program that the loggers touch.  `stdout` is the text written to
standard output so far; `stderr` is the sequence of records the standard logger of package
`log` has written; `resolve` tells which file a path names, so that two paths naming the same
file resolve to the same number; `files` gives the text of each file, character by character,
newlines included (`none`: no such file); `openError` tells for which paths `os.OpenFile`
fails, and with which error; `writeFault` tells for which paths a write to the file opened
there fails, and after how many characters; `clock` is the sequence of formatted date-time
stamps successive readings of the clock give, `clockReads` the number of readings made so
far. -/
structure World where
  stdout : String
  stderr : List String
  resolve : String → Nat
  files : Nat → Option String
  openError : String → Option GoError
  writeFault : String → Option Nat
  clock : Nat → String
  clockReads : Nat

/-- Read the clock (as the header formatting of package `log` does): the current stamp, and
the world in which that reading has been consumed. -/
def World.now (w : World) : String × World :=
  (w.clock w.clockReads, { w with clockReads := w.clockReads + 1 })

/-- The statement `fmt.Printf(format, ...)` once formatted to `text`: the text goes to
standard output.  The error `fmt.Printf` returns is discarded by every caller. -/
def fmtPrint (text : String) (w : World) : World :=
  { w with stdout := w.stdout ++ text }

/-- The call `log.Printf(format, ...)` once formatted to `text`: the standard logger writes
one record, the stamp of its default flags (date and time) followed by the text. -/
def logPrintf (text : String) (w : World) : World :=
  let (stamp, w1) := w.now
  { w1 with stderr := w1.stderr ++ [stamp ++ " " ++ text] }

/-- The call `os.OpenFile(name, O_APPEND|O_CREATE|O_WRONLY, 0644)`: the error when the open
fails, otherwise the world in which the file exists (created empty when it was missing). -/
def osOpenFileAppend (name : String) (w : World) : Except GoError World :=
  match w.openError name with
  | some err => .error err
  | none =>
    .ok { w with
      files := fun i =>
        if i = w.resolve name then some ((w.files (w.resolve name)).getD "") else w.files i }

/-- One `Write` of `text` on the file opened for appending under `name`: the text is added at
the end of the file; when the write fails, only the characters written before the failure
are. -/
def fileWrite (name : String) (text : String) (w : World) : World :=
  let reached : String :=
    match w.writeFault name with
    | none => text
    | some k => String.mk (text.data.take k)
  { w with
    files := fun i =>
      if i = w.resolve name then some ((w.files (w.resolve name)).getD "" ++ reached)
      else w.files i }

/-- The call `logger.Println(message)` on a `log.New(file, prefix, Ldate|Ltime|Lshortfile)`
logger whose file was opened for appending under `name`: one write of the prefix, the date
and time, the source position of the call, the message and the newline `Println` puts after
its operands.  `Println` returns nothing, so a failure of the write goes unnoticed. -/
def filePrintln (name : String) (pfx : String) (shortfile : String) (message : String)
    (w : World) : World :=
  let (stamp, w1) := w.now
  fileWrite name (pfx ++ stamp ++ " " ++ shortfile ++ ": " ++ message ++ "\n") w1

/-! ## Loggers (`Ioc/main.go`, `dip/main.go`) -/

/-- The two programs that declare the loggers and the error handler.  Their declarations are
textually the same; only the source line of the `logger.Println` call differs, which the
`Lshortfile` flag makes visible in the file. -/
inductive Program where
  | Ioc
  | dip
deriving DecidableEq, Repr

/-- The `file:line` of the `logger.Println(message)` call in `FileLogger.Log`. -/
def Program.printlnPos : Program → String
  | .Ioc => "main.go:87"
  | .dip => "main.go:54"

/-- A non-nil value of the interface `Logger`: anything with a method `Log(message string)`.
Calling the method either returns, leaving a new world, or panics. -/
structure Logger where
  Log : String → World → Except Panic World

/-- The struct `ConsoleLogger`: no fields. -/
structure ConsoleLogger where
deriving DecidableEq, Repr

/-- Method `(*ConsoleLogger).Log`. -/
def ConsoleLogger.Log (_cl : ConsoleLogger) (message : String) (w : World) :
    Except Panic World :=
  .ok (fmtPrint ("Konsol Log: " ++ message ++ "\n") w)

/-- The struct `FileLogger`. -/
structure FileLogger where
  fileName : String
deriving DecidableEq, Repr

/-- Method `(*FileLogger).Log`. -/
def FileLogger.Log (prog : Program) (fl : FileLogger) (message : String) (w : World) :
    Except Panic World :=
  match osOpenFileAppend fl.fileName w with
  | .error err =>
    .ok (logPrintf ("Dosyaya log yazarken hata oluştu: " ++ fmtV (some err)) w)
  | .ok w1 =>
    let w2 := filePrintln fl.fileName "FILE: " prog.printlnPos message w1
    .ok (fmtPrint ("Dosyaya log yazıldı: " ++ message ++ "\n") w2)

/-- A `*ConsoleLogger` used as a `Logger`. -/
def ConsoleLogger.toLogger (cl : ConsoleLogger) : Logger := ⟨cl.Log⟩

/-- A `*FileLogger` used as a `Logger`. -/
def FileLogger.toLogger (prog : Program) (fl : FileLogger) : Logger := ⟨fl.Log prog⟩

/-! ## The error handler -/

/-- The struct `ErrorHandler`; its field holds an interface value, which may be nil. -/
structure ErrorHandler where
  logger : Option Logger

/-- Constructor `NewErrorHandler`. -/
def NewErrorHandler (logger : Option Logger) : ErrorHandler := { logger := logger }

/-- Method `(*ErrorHandler).HandleError`. -/
def ErrorHandler.HandleError (eh : ErrorHandler) (err : Option GoError) (w : World) :
    Except Panic World :=
  match eh.logger with
  | none => .error Panic.nilDereference
  | some l => l.Log ("Hata meydana geldi: " ++ fmtV err) w

/-! ## The container (`Ioc/main.go`) -/

/-- The struct `Container`, with its map allocated as `NewContainer` leaves it. -/
structure Container where
  loggers : GoMap String (Option Logger)

/-- Constructor `NewContainer`. -/
def NewContainer : Container := { loggers := GoMap.empty }

/-- Method `(*Container).RegisterLogger`; the container after the call. -/
def Container.RegisterLogger (c : Container) (name : String) (logger : Option Logger) :
    Container :=
  { c with loggers := c.loggers.set name logger }

/-- Method `(*Container).GetLogger`; the pair of results. -/
def Container.GetLogger (c : Container) (name : String) : Option Logger × Option GoError :=
  match c.loggers.get? name with
  | none => (none, some ⟨"Logger bulunamadı: " ++ name⟩)
  | some logger => (logger, none)

/-- Method `(*Container).GetErrorHandler`; the pair of results. -/
def Container.GetErrorHandler (c : Container) (loggerName : String) :
    Option ErrorHandler × Option GoError :=
  match c.GetLogger loggerName with
  | (_, some err) => (none, some err)
  | (logger, none) => (some (NewErrorHandler logger), none)

/-- A container after a sequence of `RegisterLogger` calls, made in list order. -/
def Container.registerAll (c : Container) (calls : List (String × Option Logger)) : Container :=
  calls.foldl (fun c call => c.RegisterLogger call.1 call.2) c

/-- The logger passed to the most recent call, in a sequence of `RegisterLogger` calls, that
registered under `name`; `none` when no call did. -/
def mostRecent (name : String) (calls : List (String × Option Logger)) :
    Option (Option Logger) :=
  (calls.reverse.find? (fun call => call.1 = name)).map Prod.snd

/-- A call of one of the three methods of `*Container`. -/
inductive ContainerCall where
  | RegisterLogger (name : String) (logger : Option Logger)
  | GetLogger (name : String)
  | GetErrorHandler (loggerName : String)

/-- Whether the call is one of the two lookups, `GetLogger` or `GetErrorHandler`. -/
def ContainerCall.isLookup : ContainerCall → Bool
  | .RegisterLogger _ _ => false
  | .GetLogger _ => true
  | .GetErrorHandler _ => true

/-- The container a method call leaves behind its pointer receiver: `RegisterLogger` assigns
into the map; the bodies of `GetLogger` and `GetErrorHandler` read `c.loggers` and assign to
nothing reachable from `c`. -/
def Container.after (c : Container) : ContainerCall → Container
  | .RegisterLogger name logger => c.RegisterLogger name logger
  | .GetLogger _ => c
  | .GetErrorHandler _ => c

/-- The container a sequence of method calls, made in list order, leaves behind. -/
def Container.afterAll (c : Container) (calls : List ContainerCall) : Container :=
  calls.foldl Container.after c

/-! ## Floating point (`float64`) -/

/-- A value of Go's `float64`, an IEEE 754 binary64 number: a finite number
`(-1)^neg * mant * 2^exp`, an infinity, or a NaN (the payload of a NaN is not modelled).  The
arithmetic below produces finite numbers in canonical form only: `mant < 2^53`,
`-1074 ≤ exp ≤ 971`, and `2^52 ≤ mant` unless `exp = -1074`. -/
inductive Float64 where
  | finite (neg : Bool) (mant : Nat) (exp : Int)
  | inf (neg : Bool)
  | nan
deriving DecidableEq, Repr

namespace Float64

/-- Number of binary digits of `n`, with `fuel` bounding the number of halvings. -/
def bitLengthAux : Nat → Nat → Nat
  | 0, _ => 0
  | fuel + 1, n => if n = 0 then 0 else bitLengthAux fuel (n / 2) + 1

/-- Number of binary digits of `n`: `0` for `0`, and `k + 1` when `2^k ≤ n < 2^(k+1)`. -/
def bitLength (n : Nat) : Nat := bitLengthAux n n

/-- For positive `num` and `den`: the integer `k` with `2^k ≤ num / den < 2^(k+1)`. -/
def floorLog2Ratio (num den : Nat) : Int :=
  let k : Int := (bitLength num : Int) - (bitLength den : Int)
  if (if 0 ≤ k then den * 2 ^ k.toNat ≤ num else den ≤ num * 2 ^ (-k).toNat) then k else k - 1

/-- The fraction `num / den * 2^s` as a numerator and a denominator. -/
def scaleRatio (num den : Nat) (s : Int) : Nat × Nat :=
  if 0 ≤ s then (num * 2 ^ s.toNat, den) else (num, den * 2 ^ (-s).toNat)

/-- The integer nearest to `num / den`, a tie going to the even neighbour. -/
def roundHalfEven (num den : Nat) : Nat :=
  let q := num / den
  let r := num % den
  if 2 * r < den then q
  else if den < 2 * r then q + 1
  else if q % 2 = 0 then q else q + 1

/-- The binary64 number nearest to `(-1)^neg * num / den * 2^e` (with `den` positive), in the
default rounding mode, round to nearest with ties to even: 53 significant bits, gradual
underflow below `2^(-1022)`, overflow to infinity. -/
def round (neg : Bool) (num den : Nat) (e : Int) : Float64 :=
  if num = 0 then finite neg 0 (-1074)
  else
    let fl := floorLog2Ratio num den + e
    let t := max (fl - 52) (-1074)
    let nd := scaleRatio num den (e - t)
    let q := roundHalfEven nd.1 nd.2
    let qt : Nat × Int := if q = 2 ^ 53 then (2 ^ 52, t + 1) else (q, t)
    if 971 < qt.2 then inf neg else finite neg qt.1 qt.2

/-- The operator `*` on `float64`. -/
def mul : Float64 → Float64 → Float64
  | nan, _ => nan
  | _, nan => nan
  | inf s1, inf s2 => inf (xor s1 s2)
  | inf s1, finite s2 m _ => if m = 0 then nan else inf (xor s1 s2)
  | finite s1 m _, inf s2 => if m = 0 then nan else inf (xor s1 s2)
  | finite s1 m1 e1, finite s2 m2 e2 => round (xor s1 s2) (m1 * m2) 1 (e1 + e2)

/-- The `float64` a decimal constant converts to: `digits` read as a decimal numeral with
`fracDigits` digits after the point, rounded to the nearest binary64 number.  The constant
`1500.00` is `ofDecimal 150000 2`, the constant `0.90` is `ofDecimal 90 2`. -/
def ofDecimal (digits : Nat) (fracDigits : Nat) : Float64 :=
  round false digits (10 ^ fracDigits) 0

/-- The rational number a finite `float64` stands for; `none` for infinities and NaN. -/
def toRat? : Float64 → Option ℚ
  | finite neg mant exp => some ((if neg then -1 else 1) * (mant : ℚ) * (2 : ℚ) ^ exp)
  | inf _ => none
  | nan => none

end Float64

/-! ## Discount strategies (`ocp/main.go`) -/

/-- A non-nil value of the interface `DiscountStrategy`: anything with a method
`ApplyDiscount(price float64) float64`. -/
structure DiscountStrategy where
  ApplyDiscount : Float64 → Float64

/-- The struct `NoDiscount`: no fields. -/
structure NoDiscount where
deriving DecidableEq, Repr

/-- Method `NoDiscount.ApplyDiscount`. -/
def NoDiscount.ApplyDiscount (_nd : NoDiscount) (price : Float64) : Float64 :=
  price

/-- The struct `FixedDiscount`: no fields. -/
structure FixedDiscount where
deriving DecidableEq, Repr

/-- Method `FixedDiscount.ApplyDiscount`. -/
def FixedDiscount.ApplyDiscount (_fd : FixedDiscount) (price : Float64) : Float64 :=
  price.mul (Float64.ofDecimal 90 2)

/-- The struct `StudentDiscount`: no fields. -/
structure StudentDiscount where
deriving DecidableEq, Repr

/-- Method `StudentDiscount.ApplyDiscount`. -/
def StudentDiscount.ApplyDiscount (_sd : StudentDiscount) (price : Float64) : Float64 :=
  price.mul (Float64.ofDecimal 85 2)

/-- The struct `BlackFridayDiscount`: no fields. -/
structure BlackFridayDiscount where
deriving DecidableEq, Repr

/-- Method `BlackFridayDiscount.ApplyDiscount`. -/
def BlackFridayDiscount.ApplyDiscount (_bfd : BlackFridayDiscount) (price : Float64) :
    Float64 :=
  price.mul (Float64.ofDecimal 70 2)

/-- A `NoDiscount` used as a `DiscountStrategy`. -/
def NoDiscount.toStrategy (nd : NoDiscount) : DiscountStrategy := ⟨nd.ApplyDiscount⟩

/-- A `FixedDiscount` used as a `DiscountStrategy`. -/
def FixedDiscount.toStrategy (fd : FixedDiscount) : DiscountStrategy := ⟨fd.ApplyDiscount⟩

/-- A `StudentDiscount` used as a `DiscountStrategy`. -/
def StudentDiscount.toStrategy (sd : StudentDiscount) : DiscountStrategy :=
  ⟨sd.ApplyDiscount⟩

/-- A `BlackFridayDiscount` used as a `DiscountStrategy`. -/
def BlackFridayDiscount.toStrategy (bfd : BlackFridayDiscount) : DiscountStrategy :=
  ⟨bfd.ApplyDiscount⟩

/-- The struct `Product`. -/
structure Product where
  Name : String
  Price : Float64
deriving DecidableEq, Repr

/-- The struct `DiscountCalculator`; its field holds an interface value, which may be nil. -/
structure DiscountCalculator where
  strategy : Option DiscountStrategy

/-- Constructor `NewDiscountCalculator`. -/
def NewDiscountCalculator (strategy : Option DiscountStrategy) : DiscountCalculator :=
  { strategy := strategy }

/-- Method `(*DiscountCalculator).CalculateDiscount`. -/
def DiscountCalculator.CalculateDiscount (dc : DiscountCalculator) (productPrice : Float64) :
    Except Panic Float64 :=
  match dc.strategy with
  | none => .error Panic.nilDereference
  | some strategy => .ok (strategy.ApplyDiscount productPrice)

/-- The product `main` computes the discounts of. -/
def laptop : Product := { Name := "Laptop", Price := Float64.ofDecimal 150000 2 }

/-! ## Theorems -/

/-! ### The builtin map -/

theorem GoMap.lookupEntries_filter_ne {K V : Type} [DecidableEq K] (k k0 : K)
    (l : List (K × V)) (hne : k0 ≠ k) :
    GoMap.lookupEntries k0 (l.filter (fun e => !decide (e.1 = k))) = GoMap.lookupEntries k0 l := by
  induction l with
  | nil => rfl
  | cons hd tl ih =>
    obtain ⟨k', v'⟩ := hd
    by_cases h : k' = k
    · subst h
      simp [GoMap.lookupEntries, hne.symm, ih]
    · by_cases h0 : k' = k0
      · subst h0
        simp [GoMap.lookupEntries, h]
      · simp [GoMap.lookupEntries, h, h0, ih]

theorem GoMap.get?_set_self {K V : Type} [DecidableEq K] (m : GoMap K V) (k : K) (v : V) :
    (m.set k v).get? k = some v := by
  simp [GoMap.get?, GoMap.set, GoMap.lookupEntries]

theorem GoMap.get?_set_ne {K V : Type} [DecidableEq K] (m : GoMap K V) (k k0 : K) (v : V)
    (hne : k0 ≠ k) : (m.set k v).get? k0 = m.get? k0 := by
  simp only [GoMap.get?, GoMap.set, GoMap.lookupEntries, if_neg hne.symm]
  exact GoMap.lookupEntries_filter_ne k k0 m.entries hne

/-! ### The registry -/

theorem Container.getLogger_register_self (c : Container) (n : String) (l : Option Logger) :
    (c.RegisterLogger n l).GetLogger n = (l, none) := by
  simp [Container.GetLogger, Container.RegisterLogger, GoMap.get?_set_self]

theorem Container.getLogger_register_ne (c : Container) (n m : String) (l : Option Logger)
    (hne : m ≠ n) : (c.RegisterLogger n l).GetLogger m = c.GetLogger m := by
  simp [Container.GetLogger, Container.RegisterLogger, GoMap.get?_set_ne _ _ _ _ hne]

theorem Container.registerAll_append (c : Container) (calls : List (String × Option Logger))
    (call : String × Option Logger) :
    c.registerAll (calls ++ [call]) = (c.registerAll calls).RegisterLogger call.1 call.2 := by
  simp [Container.registerAll, List.foldl_append]

theorem mostRecent_nil (n : String) : mostRecent n [] = none := rfl

theorem mostRecent_append (n : String) (calls : List (String × Option Logger))
    (call : String × Option Logger) :
    mostRecent n (calls ++ [call]) =
      if call.1 = n then some call.2 else mostRecent n calls := by
  by_cases h : call.1 = n <;> simp [mostRecent, List.find?_cons, h]

theorem mostRecent_eq_none_iff (n : String) (calls : List (String × Option Logger)) :
    mostRecent n calls = none ↔ n ∉ calls.map Prod.fst := by
  simp only [mostRecent, Option.map_eq_none', List.find?_eq_none, List.mem_reverse,
    decide_eq_true_eq, List.mem_map, not_exists, not_and]

/-- What `GetLogger` returns after a sequence of registrations on any container: the logger of
the most recent registration under the name if there is one, what the container returned
before otherwise. -/
theorem Container.getLogger_registerAll (c : Container)
    (calls : List (String × Option Logger)) (n : String) :
    (c.registerAll calls).GetLogger n =
      match mostRecent n calls with
      | some l => (l, none)
      | none => c.GetLogger n := by
  induction calls using List.reverseRecOn with
  | nil => simp [Container.registerAll, mostRecent_nil]
  | append_singleton calls call ih =>
    rw [Container.registerAll_append, mostRecent_append]
    by_cases h : call.1 = n
    · subst h
      simp [Container.getLogger_register_self]
    · have hne : n ≠ call.1 := fun e => h e.symm
      rw [Container.getLogger_register_ne _ _ _ _ hne, ih]
      simp [h]

theorem Container.getLogger_newContainer (n : String) :
    NewContainer.GetLogger n = (none, some ⟨"Logger bulunamadı: " ++ n⟩) := rfl

/-- C1: `GetLogger(n)` right after `RegisterLogger(n, l)` returns exactly `l` and a nil error,
on every container; and after any sequence of `RegisterLogger` calls on `NewContainer()`,
`GetLogger(n)` returns the logger passed to the most recent call that registered under `n`,
with a nil error. -/
theorem Container.getLogger_returns_most_recent (n : String) (l : Option Logger) :
    (∀ c : Container, (c.RegisterLogger n l).GetLogger n = (l, none)) ∧
    (∀ (c : Container) (later : List (String × Option Logger)),
      n ∉ later.map Prod.fst →
        ((c.RegisterLogger n l).registerAll later).GetLogger n = (l, none)) ∧
    (∀ calls : List (String × Option Logger), mostRecent n calls = some l →
      (NewContainer.registerAll calls).GetLogger n = (l, none)) := by
  refine ⟨fun c => Container.getLogger_register_self c n l, ?_, ?_⟩
  · intro c later hlater
    rw [Container.getLogger_registerAll, (mostRecent_eq_none_iff n later).2 hlater]
    exact Container.getLogger_register_self c n l
  · intro calls h
    rw [Container.getLogger_registerAll, h]

/-- C1 at a concrete input: two registrations under `"consoleLogger"`, a third under another
name; the second one is returned. -/
theorem Container.getLogger_returns_most_recent_witness :
    mostRecent "consoleLogger"
        [("consoleLogger", none),
         ("consoleLogger", some (ConsoleLogger.toLogger {})),
         ("fileLogger", some (FileLogger.toLogger .Ioc ⟨"app_errors_container.log"⟩))]
      = some (some (ConsoleLogger.toLogger {})) ∧
    (NewContainer.registerAll
        [("consoleLogger", none),
         ("consoleLogger", some (ConsoleLogger.toLogger {})),
         ("fileLogger", some (FileLogger.toLogger .Ioc ⟨"app_errors_container.log"⟩))]).GetLogger
          "consoleLogger"
      = (some (ConsoleLogger.toLogger {}), none) :=
  ⟨by simp [mostRecent],
   (Container.getLogger_returns_most_recent "consoleLogger"
      (some (ConsoleLogger.toLogger {}))).2.2 _ (by simp [mostRecent])⟩

/-- C2: after any sequence of `RegisterLogger` calls on `NewContainer()`, `GetLogger(n)` for a
name `n` that no call registered returns a nil logger and the error whose text is
`Logger bulunamadı: ` followed by `n`; so does the fresh container for every name; and
`GetLogger(n)` returns a non-nil error only when no call registered `n`. -/
theorem Container.getLogger_unregistered (calls : List (String × Option Logger)) (n : String) :
    (n ∉ calls.map Prod.fst →
      (NewContainer.registerAll calls).GetLogger n =
        (none, some ⟨"Logger bulunamadı: " ++ n⟩)) ∧
    NewContainer.GetLogger n = (none, some ⟨"Logger bulunamadı: " ++ n⟩) ∧
    (((NewContainer.registerAll calls).GetLogger n).2 ≠ none → n ∉ calls.map Prod.fst) := by
  refine ⟨?_, rfl, ?_⟩
  · intro h
    rw [Container.getLogger_registerAll, (mostRecent_eq_none_iff n calls).2 h]
    rfl
  · intro h hmem
    apply h
    rw [Container.getLogger_registerAll]
    cases hm : mostRecent n calls with
    | some l => rfl
    | none => exact absurd ((mostRecent_eq_none_iff n calls).1 hm) (not_not.2 hmem)

/-- C2 at a concrete input: the two registrations of `main`, and the lookup of the name
`databaseLogger` that `main` never registers. -/
theorem Container.getLogger_unregistered_witness :
    "databaseLogger" ∉
        ([("consoleLogger", some (ConsoleLogger.toLogger {})),
          ("fileLogger", some (FileLogger.toLogger .Ioc ⟨"app_errors_container.log"⟩))] :
            List (String × Option Logger)).map Prod.fst ∧
    (NewContainer.registerAll
        [("consoleLogger", some (ConsoleLogger.toLogger {})),
         ("fileLogger", some (FileLogger.toLogger .Ioc ⟨"app_errors_container.log"⟩))]).GetLogger
          "databaseLogger"
      = (none, some ⟨"Logger bulunamadı: databaseLogger"⟩) :=
  ⟨by decide,
   (Container.getLogger_unregistered
      [("consoleLogger", some (ConsoleLogger.toLogger {})),
       ("fileLogger", some (FileLogger.toLogger .Ioc ⟨"app_errors_container.log"⟩))]
      "databaseLogger").1 (by decide)⟩

theorem Container.getErrorHandler_eq (c : Container) (n : String) :
    c.GetErrorHandler n =
      match (c.GetLogger n).2 with
      | some err => (none, some err)
      | none => (some (NewErrorHandler (c.GetLogger n).1), none) := by
  unfold Container.GetErrorHandler
  rcases c.GetLogger n with ⟨l, _ | err⟩ <;> rfl

/-- C3: `GetErrorHandler(n)` returns a non-nil error exactly when `GetLogger(n)` does; it then
returns a nil handler and the very error `GetLogger(n)` returned; and when `GetLogger(n)`
returns logger `l` with a nil error, `GetErrorHandler(n)` returns a nil error and the handler
`NewErrorHandler(l)`, whose logger is `l`. -/
theorem Container.getErrorHandler_follows_getLogger (c : Container) (n : String) :
    ((c.GetErrorHandler n).2 ≠ none ↔ (c.GetLogger n).2 ≠ none) ∧
    (∀ err : GoError, (c.GetLogger n).2 = some err →
      c.GetErrorHandler n = (none, some err)) ∧
    (∀ l : Option Logger, c.GetLogger n = (l, none) →
      c.GetErrorHandler n = (some (NewErrorHandler l), none) ∧
      (NewErrorHandler l).logger = l) := by
  refine ⟨?_, ?_, ?_⟩
  · rw [Container.getErrorHandler_eq]
    cases (c.GetLogger n).2 <;> simp
  · intro err h
    rw [Container.getErrorHandler_eq, h]
  · intro l h
    rw [Container.getErrorHandler_eq, h]
    exact ⟨rfl, rfl⟩

/-- C3 at concrete inputs: on the container of `main`, the unregistered `databaseLogger` makes
`GetErrorHandler` return the error of `GetLogger`, and the registered `consoleLogger` makes it
return a handler bound to that logger. -/
theorem Container.getErrorHandler_follows_getLogger_witness :
    (((NewContainer.RegisterLogger "consoleLogger"
        (some (ConsoleLogger.toLogger {}))).GetLogger "databaseLogger").2
      = some ⟨"Logger bulunamadı: databaseLogger"⟩ ∧
     (NewContainer.RegisterLogger "consoleLogger"
        (some (ConsoleLogger.toLogger {}))).GetErrorHandler "databaseLogger"
      = (none, some ⟨"Logger bulunamadı: databaseLogger"⟩)) ∧
    ((NewContainer.RegisterLogger "consoleLogger"
        (some (ConsoleLogger.toLogger {}))).GetLogger "consoleLogger"
      = (some (ConsoleLogger.toLogger {}), none) ∧
     (NewContainer.RegisterLogger "consoleLogger"
        (some (ConsoleLogger.toLogger {}))).GetErrorHandler "consoleLogger"
      = (some (NewErrorHandler (some (ConsoleLogger.toLogger {}))), none)) :=
  ⟨⟨rfl, (Container.getErrorHandler_follows_getLogger _ "databaseLogger").2.1 _ rfl⟩,
   ⟨rfl, ((Container.getErrorHandler_follows_getLogger _ "consoleLogger").2.2 _ rfl).1⟩⟩

theorem GoMap.filter_ne_of_not_mem {K V : Type} [DecidableEq K] (k : K) (l : List (K × V))
    (h : k ∉ l.map Prod.fst) : l.filter (fun e => !decide (e.1 = k)) = l := by
  rw [List.filter_eq_self]
  intro e he
  simp only [Bool.not_eq_eq_eq_not, Bool.not_true, decide_eq_false_iff_not]
  intro hk
  exact h (List.mem_map.2 ⟨e, he, hk⟩)

theorem GoMap.length_filter_ne {K V : Type} [DecidableEq K] (k : K) (l : List (K × V))
    (hnd : (l.map Prod.fst).Nodup) (hmem : k ∈ l.map Prod.fst) :
    (l.filter (fun e => !decide (e.1 = k))).length + 1 = l.length := by
  induction l with
  | nil => simp at hmem
  | cons hd tl ih =>
    obtain ⟨k', v'⟩ := hd
    rw [List.map_cons, List.nodup_cons] at hnd
    by_cases h : k' = k
    · subst h
      simp [GoMap.filter_ne_of_not_mem _ tl hnd.1]
    · have hmem' : k ∈ tl.map Prod.fst := by
        rcases List.mem_cons.1 hmem with e | e
        · exact absurd e.symm h
        · exact e
      simp [h, ih hnd.2 hmem']

theorem GoMap.len_set {K V : Type} [DecidableEq K] (m : GoMap K V) (k : K) (v : V) :
    (m.set k v).len = if k ∈ m.entries.map Prod.fst then m.len else m.len + 1 := by
  simp only [GoMap.len, GoMap.set, List.length_cons]
  split
  · rename_i h
    exact GoMap.length_filter_ne k m.entries m.nodupKeys h
  · rename_i h
    rw [GoMap.filter_ne_of_not_mem k m.entries h]

theorem GoMap.mem_keys_set {K V : Type} [DecidableEq K] (m : GoMap K V) (k : K) (v : V) :
    k ∈ (m.set k v).entries.map Prod.fst := by
  simp [GoMap.set]

theorem GoMap.count_keys_set {K V : Type} [DecidableEq K] (m : GoMap K V) (k : K) (v : V) :
    ((m.set k v).entries.map Prod.fst).count k = 1 :=
  List.count_eq_one_of_mem (m.set k v).nodupKeys (GoMap.mem_keys_set m k v)

/-- C4: after `RegisterLogger(n, l1)` and then `RegisterLogger(n, l2)`, `GetLogger(n)` returns
`l2` and `GetErrorHandler(n)` a handler bound to `l2`; the registry holds exactly one entry
under `n` and as many names as after the first registration; registering under a name already
present never changes the number of names; and a registration under any name, the empty
string included, takes effect. -/
theorem Container.registerLogger_overwrites (c : Container) (n : String)
    (l1 l2 : Option Logger) :
    ((c.RegisterLogger n l1).RegisterLogger n l2).GetLogger n = (l2, none) ∧
    ((c.RegisterLogger n l1).RegisterLogger n l2).GetErrorHandler n
      = (some (NewErrorHandler l2), none) ∧
    (NewErrorHandler l2).logger = l2 ∧
    (((c.RegisterLogger n l1).RegisterLogger n l2).loggers.entries.map Prod.fst).count n = 1 ∧
    ((c.RegisterLogger n l1).RegisterLogger n l2).loggers.len
      = (c.RegisterLogger n l1).loggers.len ∧
    (n ∈ c.loggers.entries.map Prod.fst →
      (c.RegisterLogger n l1).loggers.len = c.loggers.len) ∧
    (c.RegisterLogger "" l1).GetLogger "" = (l1, none) := by
  refine ⟨Container.getLogger_register_self _ n l2, ?_, rfl, ?_, ?_, ?_,
    Container.getLogger_register_self c "" l1⟩
  · rw [Container.getErrorHandler_eq, Container.getLogger_register_self]
  · exact GoMap.count_keys_set _ n l2
  · simp only [Container.RegisterLogger]
    rw [GoMap.len_set, if_pos (GoMap.mem_keys_set _ n l1)]
  · intro h
    simp only [Container.RegisterLogger]
    rw [GoMap.len_set, if_pos h]

/-- C4 at a concrete input: `consoleLogger` is registered with a file logger and then with a
console logger on the container of `main`, where the name is already present. -/
theorem Container.registerLogger_overwrites_witness :
    "consoleLogger" ∈
      (NewContainer.RegisterLogger "consoleLogger"
        (some (ConsoleLogger.toLogger {}))).loggers.entries.map Prod.fst ∧
    ((NewContainer.RegisterLogger "consoleLogger"
        (some (ConsoleLogger.toLogger {}))).RegisterLogger "consoleLogger"
          (some (FileLogger.toLogger .Ioc ⟨"a.log"⟩))).loggers.len
      = (NewContainer.RegisterLogger "consoleLogger"
          (some (ConsoleLogger.toLogger {}))).loggers.len :=
  ⟨by simp [NewContainer, Container.RegisterLogger, GoMap.set, GoMap.empty],
   (Container.registerLogger_overwrites
      (NewContainer.RegisterLogger "consoleLogger" (some (ConsoleLogger.toLogger {})))
      "consoleLogger" (some (FileLogger.toLogger .Ioc ⟨"a.log"⟩)) none).2.2.2.2.2.1
      (by simp [NewContainer, Container.RegisterLogger, GoMap.set, GoMap.empty])⟩

/-! ### Discounts -/

set_option maxRecDepth 8192 in
/-- The constants of the program as binary64 numbers: `0.90`, `0.85` and `0.70` are not
representable and convert to their nearest neighbours (bit patterns `0x3FECCCCCCCCCCCCD`,
`0x3FEB333333333333`, `0x3FE6666666666666`); `1500.00` is representable. -/
theorem Float64.ofDecimal_constants :
    Float64.ofDecimal 90 2 = .finite false 0x1CCCCCCCCCCCCD (-53) ∧
    Float64.ofDecimal 85 2 = .finite false 0x1B333333333333 (-53) ∧
    Float64.ofDecimal 70 2 = .finite false 0x16666666666666 (-53) ∧
    Float64.ofDecimal 150000 2 = .finite false (1500 * 2 ^ 42) (-42) := by
  decide

set_option maxRecDepth 8192 in
/-- The rounding of `mul` is that of binary64: `0.1 * 3` is `0x3FD3333333333334`, one unit in
the last place above the constant `0.3`; the largest finite number doubled overflows to
infinity; half the smallest subnormal number is a tie and rounds to zero. -/
theorem Float64.mul_rounding_examples :
    (Float64.ofDecimal 1 1).mul (Float64.ofDecimal 3 0)
      = .finite false 0x13333333333334 (-54) ∧
    Float64.ofDecimal 3 1 = .finite false 0x13333333333333 (-54) ∧
    (Float64.finite false (2 ^ 53 - 1) 971).mul (Float64.ofDecimal 2 0) = .inf false ∧
    (Float64.finite false 1 (-1074)).mul (Float64.ofDecimal 5 1) = .finite false 0 (-1074) := by
  decide

/-- C5: for every strategy `s` and price `p`, `NewDiscountCalculator(s).CalculateDiscount(p)`
returns what `s.ApplyDiscount(p)` returns; in particular for the four strategies the program
declares. -/
theorem DiscountCalculator.calculateDiscount_eq_applyDiscount (s : DiscountStrategy)
    (p : Float64) :
    (NewDiscountCalculator (some s)).CalculateDiscount p = .ok (s.ApplyDiscount p) ∧
    (NewDiscountCalculator (some (NoDiscount.toStrategy {}))).CalculateDiscount p
      = .ok (NoDiscount.ApplyDiscount {} p) ∧
    (NewDiscountCalculator (some (FixedDiscount.toStrategy {}))).CalculateDiscount p
      = .ok (FixedDiscount.ApplyDiscount {} p) ∧
    (NewDiscountCalculator (some (StudentDiscount.toStrategy {}))).CalculateDiscount p
      = .ok (StudentDiscount.ApplyDiscount {} p) ∧
    (NewDiscountCalculator (some (BlackFridayDiscount.toStrategy {}))).CalculateDiscount p
      = .ok (BlackFridayDiscount.ApplyDiscount {} p) :=
  ⟨rfl, rfl, rfl, rfl, rfl⟩

set_option maxRecDepth 8192 in
/-- C6: on the price `1500.00`, `FixedDiscount` yields the `float64` of `1350.00`,
`StudentDiscount` that of `1275.00`, `BlackFridayDiscount` that of `1050.00` and `NoDiscount`
that of `1500.00`; these four `float64` values are the numbers 1350, 1275, 1050 and 1500
exactly; and a `DiscountCalculator` bound to each strategy returns the same values on the
price of `laptop`, as in `main`. -/
theorem applyDiscount_laptop_price :
    (FixedDiscount.ApplyDiscount {} (Float64.ofDecimal 150000 2) = Float64.ofDecimal 135000 2 ∧
     StudentDiscount.ApplyDiscount {} (Float64.ofDecimal 150000 2)
       = Float64.ofDecimal 127500 2 ∧
     BlackFridayDiscount.ApplyDiscount {} (Float64.ofDecimal 150000 2)
       = Float64.ofDecimal 105000 2 ∧
     NoDiscount.ApplyDiscount {} (Float64.ofDecimal 150000 2) = Float64.ofDecimal 150000 2) ∧
    ((Float64.ofDecimal 135000 2).toRat? = some 1350 ∧
     (Float64.ofDecimal 127500 2).toRat? = some 1275 ∧
     (Float64.ofDecimal 105000 2).toRat? = some 1050 ∧
     (Float64.ofDecimal 150000 2).toRat? = some 1500) ∧
    ((NewDiscountCalculator (some (FixedDiscount.toStrategy {}))).CalculateDiscount
        laptop.Price = .ok (Float64.ofDecimal 135000 2) ∧
     (NewDiscountCalculator (some (StudentDiscount.toStrategy {}))).CalculateDiscount
        laptop.Price = .ok (Float64.ofDecimal 127500 2) ∧
     (NewDiscountCalculator (some (BlackFridayDiscount.toStrategy {}))).CalculateDiscount
        laptop.Price = .ok (Float64.ofDecimal 105000 2) ∧
     (NewDiscountCalculator (some (NoDiscount.toStrategy {}))).CalculateDiscount
        laptop.Price = .ok (Float64.ofDecimal 150000 2)) := by
  have e1500 : Float64.ofDecimal 150000 2 = .finite false 6597069766656000 (-42) := by decide
  have e1350 : Float64.ofDecimal 135000 2 = .finite false 5937362789990400 (-42) := by decide
  have e1275 : Float64.ofDecimal 127500 2 = .finite false 5607509301657600 (-42) := by decide
  have e1050 : Float64.ofDecimal 105000 2 = .finite false 4617948836659200 (-42) := by decide
  have hF : FixedDiscount.ApplyDiscount {} (Float64.ofDecimal 150000 2)
      = Float64.ofDecimal 135000 2 := by decide
  have hS : StudentDiscount.ApplyDiscount {} (Float64.ofDecimal 150000 2)
      = Float64.ofDecimal 127500 2 := by decide
  have hB : BlackFridayDiscount.ApplyDiscount {} (Float64.ofDecimal 150000 2)
      = Float64.ofDecimal 105000 2 := by decide
  refine ⟨⟨hF, hS, hB, rfl⟩, ⟨?_, ?_, ?_, ?_⟩, ⟨?_, ?_, ?_, rfl⟩⟩
  · rw [e1350]; simp only [Float64.toRat?]; norm_num
  · rw [e1275]; simp only [Float64.toRat?]; norm_num
  · rw [e1050]; simp only [Float64.toRat?]; norm_num
  · rw [e1500]; simp only [Float64.toRat?]; norm_num
  · exact congrArg Except.ok hF
  · exact congrArg Except.ok hS
  · exact congrArg Except.ok hB

/-- C7: for every price `p`, `NoDiscount.ApplyDiscount(p)` is `p`, and the three fixed-rate
strategies multiply `p` by a constant: `FixedDiscount` by `0.90`, `StudentDiscount` by `0.85`
and `BlackFridayDiscount` by `0.70`. -/
theorem applyDiscount_constant_factor (p : Float64) :
    NoDiscount.ApplyDiscount {} p = p ∧
    FixedDiscount.ApplyDiscount {} p = p.mul (Float64.ofDecimal 90 2) ∧
    StudentDiscount.ApplyDiscount {} p = p.mul (Float64.ofDecimal 85 2) ∧
    BlackFridayDiscount.ApplyDiscount {} p = p.mul (Float64.ofDecimal 70 2) :=
  ⟨rfl, rfl, rfl, rfl⟩

/-! ### The error handler and the loggers -/

theorem FileLogger.log_of_open_error (prog : Program) (fl : FileLogger) (m : String)
    (w : World) (err : GoError) (hopen : w.openError fl.fileName = some err) :
    fl.Log prog m w = .ok
      { w with
        stderr := w.stderr ++
          [w.clock w.clockReads ++ " " ++ "Dosyaya log yazarken hata oluştu: " ++ err.Error]
        clockReads := w.clockReads + 1 } := by
  simp only [FileLogger.Log, osOpenFileAppend, hopen, logPrintf, World.now, fmtV,
    String.append_assoc]

/-- C10: when the file of a `FileLogger` cannot be opened, `Log(m)` returns normally; the
world it leaves has every file and the standard output unchanged (so no confirmation line
`Dosyaya log yazıldı` is printed) and exactly one more record on the channel of the standard
logger, the diagnostic naming the error of the open; and `HandleError` of a handler bound to
that logger returns normally as well, with the same effects. -/
theorem FileLogger.log_open_failure_is_contained (prog : Program) (fl : FileLogger)
    (m : String) (e : Option GoError) (w : World) (err : GoError)
    (hopen : w.openError fl.fileName = some err) :
    (∃ w1 : World, fl.Log prog m w = .ok w1 ∧
      w1.files = w.files ∧ w1.stdout = w.stdout ∧
      w1.stderr = w.stderr ++
        [w.clock w.clockReads ++ " " ++ "Dosyaya log yazarken hata oluştu: " ++ err.Error]) ∧
    (∃ w2 : World,
      (NewErrorHandler (some (fl.toLogger prog))).HandleError e w = .ok w2 ∧
      w2.files = w.files ∧ w2.stdout = w.stdout ∧
      w2.stderr = w.stderr ++
        [w.clock w.clockReads ++ " " ++ "Dosyaya log yazarken hata oluştu: " ++ err.Error]) :=
  ⟨⟨_, FileLogger.log_of_open_error prog fl m w err hopen, rfl, rfl, rfl⟩,
   ⟨_, FileLogger.log_of_open_error prog fl _ w err hopen, rfl, rfl, rfl⟩⟩

/-- C10 at a concrete input: the file logger of `Ioc/main.go` in a world where opening its
file is refused. -/
theorem FileLogger.log_open_failure_is_contained_witness :
    ∃ w1 : World,
      FileLogger.Log .Ioc ⟨"app_errors_container.log"⟩ "m"
        ⟨"out", [], fun _ => 0, fun _ => none,
          fun _ => some ⟨"open app_errors_container.log: permission denied"⟩,
          fun _ => none, fun _ => "2009/11/10 23:00:00", 0⟩ = .ok w1 ∧
      w1.stdout = "out" ∧
      w1.stderr = ["2009/11/10 23:00:00 Dosyaya log yazarken hata oluştu: " ++
        "open app_errors_container.log: permission denied"] := by
  obtain ⟨w1, h1, -, h3, h4⟩ :=
    (FileLogger.log_open_failure_is_contained .Ioc ⟨"app_errors_container.log"⟩ "m" none
      ⟨"out", [], fun _ => 0, fun _ => none,
        fun _ => some ⟨"open app_errors_container.log: permission denied"⟩,
        fun _ => none, fun _ => "2009/11/10 23:00:00", 0⟩
      ⟨"open app_errors_container.log: permission denied"⟩ rfl).1
  exact ⟨w1, h1, h3, by rw [h4]; decide⟩

/-! ### Registrations and lookups under different names -/

theorem Container.getErrorHandler_register_ne (c : Container) (n m : String)
    (l : Option Logger) (hne : m ≠ n) :
    (c.RegisterLogger n l).GetErrorHandler m = c.GetErrorHandler m := by
  rw [Container.getErrorHandler_eq, Container.getErrorHandler_eq,
    Container.getLogger_register_ne c n m l hne]

theorem Container.afterAll_lookups (c : Container) (calls : List ContainerCall)
    (h : ∀ q ∈ calls, q.isLookup = true) : c.afterAll calls = c := by
  induction calls generalizing c with
  | nil => rfl
  | cons q rest ih =>
    have hq : c.after q = c := by
      have := h q (List.mem_cons_self q rest)
      cases q with
      | RegisterLogger name logger => simp [ContainerCall.isLookup] at this
      | GetLogger name => rfl
      | GetErrorHandler name => rfl
    show (c.after q).afterAll rest = c
    rw [hq]
    exact ih c (fun q' hq' => h q' (List.mem_cons_of_mem q hq'))

/-- C11: for names `m ≠ n`, `RegisterLogger(n, l)` changes neither what `GetLogger(m)` nor what
`GetErrorHandler(m)` returns: a name that resolved to a logger resolves to that same logger,
and a name that failed fails with the same error; and the two lookups leave the container as
it was, so that after any sequence of lookups every name resolves as before, in particular
when the same name is resolved twice in a row. -/
theorem Container.registerLogger_frame (c : Container) (n m : String) (l : Option Logger)
    (hne : m ≠ n) :
    (c.RegisterLogger n l).GetLogger m = c.GetLogger m ∧
    (c.RegisterLogger n l).GetErrorHandler m = c.GetErrorHandler m ∧
    (∀ l0 : Option Logger, c.GetLogger m = (l0, none) →
      (c.RegisterLogger n l).GetLogger m = (l0, none) ∧
      (c.RegisterLogger n l).GetErrorHandler m = (some (NewErrorHandler l0), none)) ∧
    (∀ err : GoError, (c.GetLogger m).2 = some err →
      ((c.RegisterLogger n l).GetLogger m).2 = some err ∧
      (c.RegisterLogger n l).GetErrorHandler m = (none, some err)) ∧
    (c.after (.GetLogger m) = c ∧ c.after (.GetErrorHandler m) = c) ∧
    (∀ lookups : List ContainerCall, (∀ q ∈ lookups, q.isLookup = true) →
      c.afterAll lookups = c ∧
      (c.afterAll lookups).GetLogger m = c.GetLogger m ∧
      (c.afterAll lookups).GetErrorHandler m = c.GetErrorHandler m) ∧
    ((c.after (.GetLogger m)).GetLogger m = c.GetLogger m ∧
     (c.after (.GetErrorHandler m)).GetErrorHandler m = c.GetErrorHandler m) := by
  have hL := Container.getLogger_register_ne c n m l hne
  have hE := Container.getErrorHandler_register_ne c n m l hne
  refine ⟨hL, hE, ?_, ?_, ⟨rfl, rfl⟩, ?_, ⟨rfl, rfl⟩⟩
  · intro l0 h
    refine ⟨hL.trans h, ?_⟩
    rw [hE, Container.getErrorHandler_eq, h]
  · intro err h
    refine ⟨by rw [hL]; exact h, ?_⟩
    rw [hE, Container.getErrorHandler_eq, h]
  · intro lookups h
    rw [Container.afterAll_lookups c lookups h]
    exact ⟨rfl, rfl, rfl⟩

/-- C11 at a concrete input: on the container holding `consoleLogger`, registering
`fileLogger` leaves the lookups of `consoleLogger` as they were. -/
theorem Container.registerLogger_frame_witness :
    "consoleLogger" ≠ "fileLogger" ∧
    ((NewContainer.RegisterLogger "consoleLogger"
        (some (ConsoleLogger.toLogger {}))).RegisterLogger "fileLogger"
          (some (FileLogger.toLogger .Ioc ⟨"app_errors_container.log"⟩))).GetLogger
            "consoleLogger"
      = (NewContainer.RegisterLogger "consoleLogger"
          (some (ConsoleLogger.toLogger {}))).GetLogger "consoleLogger" ∧
    ((NewContainer.RegisterLogger "consoleLogger"
        (some (ConsoleLogger.toLogger {}))).RegisterLogger "fileLogger"
          (some (FileLogger.toLogger .Ioc ⟨"app_errors_container.log"⟩))).GetErrorHandler
            "consoleLogger"
      = (NewContainer.RegisterLogger "consoleLogger"
          (some (ConsoleLogger.toLogger {}))).GetErrorHandler "consoleLogger" :=
  ⟨by decide,
   (Container.registerLogger_frame
      (NewContainer.RegisterLogger "consoleLogger" (some (ConsoleLogger.toLogger {})))
      "fileLogger" "consoleLogger"
      (some (FileLogger.toLogger .Ioc ⟨"app_errors_container.log"⟩)) (by decide)).1,
   (Container.registerLogger_frame
      (NewContainer.RegisterLogger "consoleLogger" (some (ConsoleLogger.toLogger {})))
      "fileLogger" "consoleLogger"
      (some (FileLogger.toLogger .Ioc ⟨"app_errors_container.log"⟩)) (by decide)).2.1⟩

end GoArch
